import Mathlib

/-!
Verification of the duckdb-haystack adapter: a shallow embedding of
`src/haystack_integrations/document_stores/duckdb/document_store.py`,
`src/haystack_integrations/document_stores/duckdb/utils.py` and
`src/haystack_integrations/retrievers/duckdb_store/retriever.py`,
together with the fragments of the host framework (haystack `Document`,
`ByteStream`, `default_to_dict`/`default_from_dict`) and of the embedded
DuckDB engine (table/index catalog, primary-key conflict handling) that
the adapter exercises.
-/

namespace DuckDBHaystack

/-- Dynamically typed Python values as they flow through the adapter.
Numbers are collapsed into a single constructor (the adapter never computes
with them, it only passes them through), and a Python string that holds the
JSON serialization of a value `v` (as produced by reading a DuckDB JSON
column) is represented by its parse tree as `jsonText v`; ordinary strings
use `str`.  `json.loads` is applied in the source only to values read from
JSON columns, so it is modelled on `jsonText` strings and on the non-string
values on which Python raises `TypeError`. -/
inductive PyVal where
  | none
  | bool (b : Bool)
  | num (n : Int)
  | str (s : String)
  | jsonText (v : PyVal)
  | bytes (bs : List Nat)
  | pylist (xs : List PyVal)
  | dict (kvs : List (String × PyVal))

/-- A Python `dict` with string keys: an insertion-ordered association list
with unique keys (Python dictionaries preserve insertion order). -/
abbrev PyDict := List (String × PyVal)

/-- `d[key]` lookup, returning `Option.none` when the key is absent. -/
def dictGet : PyDict → String → Option PyVal
  | [], _ => Option.none
  | (k, v) :: rest, key => if k = key then Option.some v else dictGet rest key

/-- `d.get(key, dflt)`. -/
def dictGetD (d : PyDict) (key : String) (dflt : PyVal) : PyVal :=
  (dictGet d key).getD dflt

/-- `key in d`. -/
def dictContains (d : PyDict) (key : String) : Bool :=
  (dictGet d key).isSome

/-- `d[key] = v`: updates the value in place when the key is present
(keeping its position), otherwise appends the new entry at the end. -/
def dictSet : PyDict → String → PyVal → PyDict
  | [], key, v => [(key, v)]
  | (k, w) :: rest, key, v =>
      if k = key then (k, v) :: rest else (k, w) :: dictSet rest key v

/-- The dictionary left by `d.pop(key, ...)`: the entry for `key` removed
(keys are unique, so removing the first occurrence removes the key). -/
def dictRemove : PyDict → String → PyDict
  | [], _ => []
  | (k, v) :: rest, key =>
      if k = key then rest else (k, v) :: dictRemove rest key

/-- Python truthiness of the modelled values: `None`, `0`, empty strings and
empty containers are falsy.  JSON text read from the engine is never the
empty string, hence truthy. -/
def pyTruthy : PyVal → Bool
  | .none => false
  | .bool b => b
  | .num n => n != 0
  | .str s => s != ""
  | .jsonText _ => true
  | .bytes bs => !bs.isEmpty
  | .pylist xs => !xs.isEmpty
  | .dict kvs => !kvs.isEmpty

/-- Coerces a Python value known to be a string (document ids are always
strings in the flows of this adapter). -/
def pyStr : PyVal → String
  | .str s => s
  | _ => ""

/-- The entry list of a Python value known to be a dict. -/
def asDictEntries : PyVal → PyDict
  | .dict kvs => kvs
  | _ => []

/-- The exceptions raised in the modelled flows.  `duplicateDocumentError`
carries the exception it was chained from (`raise ... from ce`). -/
inductive PyErr where
  | typeError
  | keyError
  | valueError
  | runtimeError
  | deserializationError
  | catalogError
  | constraintException
  | duplicateDocumentError (cause : PyErr)
deriving DecidableEq, Repr

/-- Python's `x is None` test: identity with the `None` object. -/
def isNoneVal : PyVal → Bool
  | .none => true
  | _ => false

/-- haystack's `ByteStream` dataclass.  Its fields are untyped at runtime,
and `to_haystack_documents` stores raw column values in them. -/
structure ByteStream where
  data : PyVal
  meta : PyVal
  mime_type : PyVal

/-- haystack's `Document` dataclass, restricted to the fields the adapter
touches: `id`, `content`, `blob`, `meta`, `score`, `embedding`,
`sparse_embedding` (in dataclass field order). -/
structure Document where
  id : String
  content : PyVal
  blob : Option ByteStream
  meta : PyDict
  score : PyVal
  embedding : PyVal
  sparse_embedding : PyVal

/-- Models haystack's `Document.to_dict(flatten=False)`: `dataclasses.asdict`
over the fields in declaration order, with the blob serialized to a dict.
The `meta` value stays a Python dict — it is not JSON-encoded here. -/
def Document.to_dict (doc : Document) : PyDict :=
  [("id", .str doc.id),
   ("content", doc.content),
   ("blob",
     match doc.blob with
     | Option.none => .none
     | Option.some b => .dict [("data", b.data), ("mime_type", b.mime_type)]),
   ("meta", .dict doc.meta),
   ("score", doc.score),
   ("embedding", doc.embedding),
   ("sparse_embedding", doc.sparse_embedding)]

/-- Models haystack's `Document.from_dict` on the dictionaries this adapter
produces: every key is a known field name, so no keys are folded into
`meta`; a truthy `"blob"` entry is rebuilt into a `ByteStream` (with the
dataclass default `{}` for its meta); absent fields take their dataclass
defaults. -/
def Document.from_dict (data : PyDict) : Document :=
  let blobv := dictGetD data "blob" .none
  let blob : Option ByteStream :=
    if pyTruthy blobv then
      Option.some
        { data := dictGetD (asDictEntries blobv) "data" .none
          meta := .dict []
          mime_type := dictGetD (asDictEntries blobv) "mime_type" .none }
    else Option.none
  { id := pyStr (dictGetD data "id" (.str ""))
    content := dictGetD data "content" .none
    blob := blob
    meta := asDictEntries (dictGetD data "meta" (.dict []))
    score := dictGetD data "score" .none
    embedding := dictGetD data "embedding" .none
    sparse_embedding := dictGetD data "sparse_embedding" .none }

/-- `json.loads`: JSON text parses back to the serialized value; applying it
to any non-string Python value (dict, None, list, ...) raises `TypeError`,
exactly as CPython's `json.loads` does. -/
def jsonLoads : PyVal → Except PyErr PyVal
  | .jsonText v => .ok v
  | _ => .error .typeError

/-- `utils.to_duckdb_documents`, per document: `document.to_dict(flatten=False)`
with the `score` and `blob` keys dropped, the three `blob_*` columns appended
(`blob.meta if blob and blob.meta else None` etc.), and the
`sparse_embedding` key popped (its value only triggers a log warning). -/
def to_duckdb_document (document : Document) : PyDict :=
  let db_document :=
    (Document.to_dict document).filter
      (fun kv => !(kv.1 == "score") && !(kv.1 == "blob"))
  let blob := document.blob
  let db_document :=
    dictSet db_document "blob_data"
      (match blob with
       | Option.some b => b.data
       | Option.none => .none)
  let db_document :=
    dictSet db_document "blob_meta"
      (match blob with
       | Option.some b => if pyTruthy b.meta then b.meta else .none
       | Option.none => .none)
  let db_document :=
    dictSet db_document "blob_mime_type"
      (match blob with
       | Option.some b => if pyTruthy b.mime_type then b.mime_type else .none
       | Option.none => .none)
  if dictContains db_document "sparse_embedding" then
    dictRemove db_document "sparse_embedding"
  else db_document

/-- `utils.to_duckdb_documents`: the source's append loop over the input
list, i.e. a map of the per-document conversion. -/
def to_duckdb_documents (documents : List Document) : List PyDict :=
  documents.map to_duckdb_document

/-- `utils.to_haystack_documents`, per document.  The `breakpoint()` left in
the source suspends execution but does not alter the data flow.  The three
`blob_*` keys are popped (default `None`), `haystack_dict["embedding"]` is
re-assigned from the input (`KeyError` when absent), the `meta` entry is
popped when it `is None` and otherwise replaced by `json.loads` of its value,
and a truthy `blob_data` is reattached as a `ByteStream` built from the raw
popped column values. -/
def to_haystack_document (document : PyDict) : Except PyErr Document := do
  let haystack_dict := document
  let blob_data := dictGetD haystack_dict "blob_data" .none
  let haystack_dict := dictRemove haystack_dict "blob_data"
  let blob_meta := dictGetD haystack_dict "blob_meta" .none
  let haystack_dict := dictRemove haystack_dict "blob_meta"
  let blob_mime_type := dictGetD haystack_dict "blob_mime_type" .none
  let haystack_dict := dictRemove haystack_dict "blob_mime_type"
  let emb ←
    match dictGet document "embedding" with
    | Option.some v => Except.ok v
    | Option.none => Except.error PyErr.keyError
  let haystack_dict := dictSet haystack_dict "embedding" emb
  let haystack_dict ←
    if dictContains haystack_dict "meta" &&
        isNoneVal (dictGetD haystack_dict "meta" (.str "")) then
      Except.ok (dictRemove haystack_dict "meta")
    else do
      let raw ←
        match dictGet haystack_dict "meta" with
        | Option.some v => Except.ok v
        | Option.none => Except.error PyErr.keyError
      let parsed ← jsonLoads raw
      Except.ok (dictSet haystack_dict "meta" parsed)
  let haystack_document := Document.from_dict haystack_dict
  let haystack_document :=
    if pyTruthy blob_data then
      { haystack_document with
          blob := Option.some
            { data := blob_data, meta := blob_meta, mime_type := blob_mime_type } }
    else haystack_document
  Except.ok haystack_document

/-- The append loop of `to_haystack_documents`: the first exception aborts
the whole conversion, as in Python. -/
def to_haystack_loop : List PyDict → Except PyErr (List Document)
  | [] => .ok []
  | d :: rest =>
    match to_haystack_document d with
    | .error e => .error e
    | .ok doc =>
      match to_haystack_loop rest with
      | .error e => .error e
      | .ok docs => .ok (doc :: docs)

/-- Python's `documents == [{}]` test: a one-element list whose sole element
is the empty dict. -/
def eqSingletonEmptyDict : List PyDict → Bool
  | [[]] => true
  | _ => false

/-- `utils.to_haystack_documents`: the special case `documents == [{}]`
returns the empty list, otherwise each dictionary is converted in turn. -/
def to_haystack_documents (documents : List PyDict) : Except PyErr (List Document) :=
  if eqSingletonEmptyDict documents then .ok []
  else to_haystack_loop documents

/-- `utils.validate_table_name`: the source's `# FIXME` stub accepts every
name. -/
def validate_table_name (_name : String) : Bool :=
  true

/-- One row of the table created by `_CREATE_TABLE_QUERY`
(`id VARCHAR PRIMARY KEY, embedding FLOAT[], content TEXT, blob_data BYTEA,
blob_meta JSON, blob_mime_type VARCHAR, meta JSON`).  A JSON column stores
the parse tree of its JSON text, with `Option.none` for SQL NULL; the other
columns store the bound Python value (NULL as `PyVal.none`). -/
structure Row where
  id : String
  embedding : PyVal
  content : PyVal
  blob_data : PyVal
  blob_meta : Option PyVal
  blob_mime_type : PyVal
  meta : Option PyVal

/-- Conversion applied by the engine when a Python value is bound to a JSON
column: `None` becomes NULL, a JSON-text string is parsed back to its value,
and a dict (or any other JSON-compatible value) is stored as its JSON. -/
def jsonColumn : PyVal → Option PyVal
  | .none => Option.none
  | .jsonText v => Option.some v
  | v => Option.some v

/-- The value a VARCHAR/TEXT/BYTEA/FLOAT[] column hands back to Python: the
stored value itself (NULL as `None`). -/
def plainColumn (v : PyVal) : PyVal :=
  v

/-- The value a JSON column hands back to Python: the JSON text of the
stored value, or `None` for NULL. -/
def jsonColumnOut : Option PyVal → PyVal
  | Option.none => .none
  | Option.some v => .jsonText v

/-- The catalog-level state of the embedded database as used by the store:
whether the store's table exists (and its rows), and whether the store's
HNSW index exists. -/
structure DBState where
  tableExists : Bool
  rows : List Row
  indexExists : Bool

/-- A fresh (in-memory) database: no table, no rows, no index. -/
def freshDB : DBState :=
  { tableExists := false, rows := [], indexExists := false }

/-- The `DuckDBDocumentStore` object: exactly the attributes `__init__`
assigns (`table`, `index`, `recreate_table`, `recreate_index`,
`create_index_if_missing`, `embedding_dim`, the `_db` connection state and
the `_table_initialized` flag).  The `embedding_field`, `similarity_metric`
and `write_batch_size` constructor arguments are accepted and dropped by the
source, so they are not part of the object. -/
structure Store where
  table : String
  index : String
  recreate_table : Bool
  recreate_index : Bool
  create_index_if_missing : Bool
  embedding_dim : Nat
  db : DBState
  tableInit : Bool

/-- `_delete_table`: `DROP TABLE IF EXISTS` removes the table, its rows and
its dependent indexes. -/
def delete_table (s : Store) : Store :=
  { s with db := { s.db with tableExists := false, rows := [], indexExists := false } }

/-- `_delete_index`: `DROP INDEX IF EXISTS`. -/
def delete_index (s : Store) : Store :=
  { s with db := { s.db with indexExists := false } }

/-- `_create_index`: optionally drops the index first, then runs
`CREATE INDEX {index} ON {table} USING HNSW(embedding)`, which raises a
`duckdb.CatalogException` when an index with that name already exists. -/
def create_index (s : Store) : Store × Except PyErr Unit :=
  let s := if s.recreate_index then delete_index s else s
  if s.db.indexExists then (s, .error .catalogError)
  else ({ s with db := { s.db with indexExists := true } }, .ok ())

/-- `_create_table`: optionally drops the table first, then runs
`_CREATE_TABLE_QUERY`; a `duckdb.DatabaseError` (e.g. the table already
exists) is caught and logged, in which case `_table_initialized` is not
set. -/
def create_table (s : Store) : Store :=
  let s := if s.recreate_table then delete_table s else s
  if s.db.tableExists then s
  else { s with db := { s.db with tableExists := true }, tableInit := true }

/-- `_ensure_db_setup`: creates the table when `_table_initialized` is not
set, then — because `index_exists` is hard-coded to `False` in the source —
always takes the missing-index branch: it raises `RuntimeError` when
`create_index_if_missing` is off and otherwise runs `_create_index`. -/
def ensure_db_setup (s : Store) : Store × Except PyErr Unit :=
  let s := if !s.tableInit then create_table s else s
  if !s.create_index_if_missing then (s, .error .runtimeError)
  else create_index s

/-- The constructor arguments of `DuckDBDocumentStore.__init__`, with the
source's defaults.  (`database`, `embedding_field`, `similarity_metric` and
`write_batch_size` are accepted but never stored on the object; `database`
is replaced here by the `DBState` the connection opens onto.) -/
structure InitParams where
  table : String := "haystack_documents"
  index : String := "hnsw_idx_haystack_documents"
  embedding_dim : Nat := 768
  create_index_if_missing : Bool := true
  recreate_table : Bool := false
  recreate_index : Bool := false
deriving DecidableEq

/-- `DuckDBDocumentStore.__init__` on a database in state `db`: validates
the table and index names (the stub accepts everything), connects (the
`vss` extension install/load does not touch the modelled state), and runs
`_ensure_db_setup`, propagating its exception. -/
def mkStore (p : InitParams) (db : DBState) : Except PyErr Store :=
  if !validate_table_name p.table then .error .valueError
  else if !validate_table_name p.index then .error .valueError
  else
    let s : Store :=
      { table := p.table
        index := p.index
        recreate_table := p.recreate_table
        recreate_index := p.recreate_index
        create_index_if_missing := p.create_index_if_missing
        embedding_dim := p.embedding_dim
        db := db
        tableInit := false }
    match ensure_db_setup s with
    | (s, .ok _) => .ok s
    | (_, .error e) => .error e

/-- The column list of `filter_documents`. -/
def columns : List String :=
  ["id", "embedding", "content", "blob_data", "blob_meta", "blob_mime_type", "meta"]

/-- The tuple DuckDB returns for one row under `SELECT id, embedding,
content, blob_data, blob_meta, blob_mime_type, meta`. -/
def rowTuple (r : Row) : List PyVal :=
  [.str r.id, plainColumn r.embedding, plainColumn r.content,
   plainColumn r.blob_data, jsonColumnOut r.blob_meta,
   plainColumn r.blob_mime_type, jsonColumnOut r.meta]

/-- The dict comprehension of `filter_documents`:
`{col: val for rec in records for col, val in zip(columns, rec, strict=True)}`
builds a single dictionary over all fetched records, later records
overwriting earlier ones column by column (every tuple has exactly the seven
columns, so `strict=True` never raises). -/
def mergeRecords (records : List (List PyVal)) : PyDict :=
  records.foldl
    (fun d rec => (columns.zip rec).foldl (fun d kv => dictSet d kv.1 kv.2) d)
    []

/-- `filter_documents`: runs `_ensure_db_setup`, reads the `filters`
argument into `_` without using it (translation is a TODO in the source),
issues the unfiltered SELECT, fetches with `fetchmany()` — whose default
`size` is 1 — merges the fetched records into one dictionary, and converts
`[that_dict]` with `to_haystack_documents`. -/
def filter_documents (s : Store) (filters : PyVal) :
    Store × Except PyErr (List Document) :=
  match ensure_db_setup s with
  | (s, .error e) => (s, .error e)
  | (s, .ok _) =>
    let _ := filters
    let records := (s.db.rows.map rowTuple).take 1
    let docs := [mergeRecords records]
    (s, to_haystack_documents docs)

/-- haystack's `DuplicatePolicy` enum. -/
inductive DuplicatePolicy where
  | NONE
  | SKIP
  | OVERWRITE
  | FAIL
deriving DecidableEq

/-- The conflict clause appended to the INSERT statement: empty for `FAIL`
(the variable keeps its initial `""`), `ON CONFLICT DO NOTHING` for `SKIP`
and `NONE`, and the `_UPDATE_QUERY` upsert for `OVERWRITE`. -/
inductive ConflictClause where
  | emptyClause
  | doNothing
  | doUpdate
deriving DecidableEq

/-- `write_documents`' policy dispatch. -/
def policy_action : DuplicatePolicy → ConflictClause
  | .SKIP => .doNothing
  | .NONE => .doNothing
  | .OVERWRITE => .doUpdate
  | .FAIL => .emptyClause

/-- The row bound by the INSERT's named parameters `$id, $embedding,
$content, $blob_data, $blob_meta, $blob_mime_type, $meta` out of one
dictionary produced by `to_duckdb_documents`. -/
def dictToRow (d : PyDict) : Row :=
  { id := pyStr (dictGetD d "id" .none)
    embedding := dictGetD d "embedding" .none
    content := dictGetD d "content" .none
    blob_data := dictGetD d "blob_data" .none
    blob_meta := jsonColumn (dictGetD d "blob_meta" .none)
    blob_mime_type := dictGetD d "blob_mime_type" .none
    meta := jsonColumn (dictGetD d "meta" .none) }

/-- The row written by the `_UPDATE_QUERY` upsert: every column except the
conflicting `id` is taken from the excluded (new) row. -/
def upsertRow (excluded old : Row) : Row :=
  { excluded with id := old.id }

/-- The engine's execution of one INSERT with the given conflict clause:
a row whose `id` collides with the PRIMARY KEY raises
`duckdb.ConstraintException` (empty clause), is skipped (`DO NOTHING`) or
updates the stored row in place (`DO UPDATE`); otherwise the row is
appended.  The returned number is the statement's `Count` result, fetched by
`fetchone()[0]` in the source. -/
def insertRow (clause : ConflictClause) (rows : List Row) (r : Row) :
    Except PyErr (List Row × Nat) :=
  match clause with
  | .emptyClause =>
      if rows.any (fun row => row.id == r.id) then .error .constraintException
      else .ok (rows ++ [r], 1)
  | .doNothing =>
      if rows.any (fun row => row.id == r.id) then .ok (rows, 0)
      else .ok (rows ++ [r], 1)
  | .doUpdate =>
      if rows.any (fun row => row.id == r.id) then
        .ok (rows.map (fun row => if row.id == r.id then upsertRow r row else row), 1)
      else .ok (rows ++ [r], 1)

/-- The insert loop of `write_documents` inside the transaction: each
converted document is inserted in turn and the `Count` results are summed;
the first engine exception aborts the loop. -/
def runInserts (clause : ConflictClause) (rows : List Row) (docs : List PyDict)
    (num_written : Nat) : Except PyErr (List Row × Nat) :=
  match docs with
  | [] => .ok (rows, num_written)
  | d :: rest =>
    match insertRow clause rows (dictToRow d) with
    | .error e => .error e
    | .ok (rows2, n) => runInserts clause rows2 rest (num_written + n)

/-- `write_documents`: the `isinstance` checks on the argument are enforced
by the types of this embedding; the documents are converted with
`to_duckdb_documents` and inserted inside a `begin`/`commit` transaction.
A `duckdb.ConstraintException` rolls the transaction back — leaving the
stored rows untouched — and is re-raised as
`DuplicateDocumentError from ce`. -/
def write_documents (s : Store) (documents : List Document)
    (policy : DuplicatePolicy) : Store × Except PyErr Nat :=
  match runInserts (policy_action policy) s.db.rows (to_duckdb_documents documents) 0 with
  | .ok (rows2, n) => ({ s with db := { s.db with rows := rows2 } }, .ok n)
  | .error PyErr.constraintException =>
      (s, .error (.duplicateDocumentError .constraintException))
  | .error e => (s, .error e)

/-- `delete_documents`: runs `_ensure_db_setup` (propagating its
exception), performs the stray `self._db.fetchone()` — which only reads the
previous statement's exhausted result and changes nothing — and issues the
single `DELETE FROM {table} WHERE id in ?` statement with the id list as
parameter, which removes exactly the rows whose `id` is in the list. -/
def delete_documents (s : Store) (document_ids : List String) :
    Store × Except PyErr Unit :=
  match ensure_db_setup s with
  | (s, .error e) => (s, .error e)
  | (s, .ok _) =>
    ({ s with db :=
        { s.db with rows := s.db.rows.filter (fun row => !document_ids.contains row.id) } },
     .ok ())

/-- The dictionary produced by `DuckDBDocumentStore.to_dict` via haystack's
`default_to_dict`: the import path of the class and the explicitly listed
init parameters — only `table` and `index` (the source marks the rest with
`# FIXME: Add remaining instance attributes`). -/
structure SerializedStore where
  type : String
  init_table : String
  init_index : String
deriving DecidableEq

/-- The import path `default_to_dict` records. -/
def storeTypeName : String :=
  "haystack_integrations.document_stores.duckdb.document_store.DuckDBDocumentStore"

/-- `DuckDBDocumentStore.to_dict`. -/
def Store.to_dict (s : Store) : SerializedStore :=
  { type := storeTypeName, init_table := s.table, init_index := s.index }

/-- `DuckDBDocumentStore.from_dict` via haystack's `default_from_dict`: the
recorded type must match, and the class is constructed from the recorded
init parameters — every constructor argument that was not serialized takes
its default. -/
def Store.from_dict (data : SerializedStore) (db : DBState) : Except PyErr Store :=
  if data.type = storeTypeName then
    mkStore { table := data.init_table, index := data.init_index } db
  else .error .deserializationError

/-- The `DuckDBRetriever` component: the attributes its `__init__` assigns. -/
structure DuckDBRetriever where
  document_store : Store
  filters : PyVal
  top_k : Nat

/-- `DuckDBRetriever.run`: the body is `return []  # FIXME`, whatever the
input and however the component was configured. -/
def DuckDBRetriever.run (_self : DuckDBRetriever) (_data : PyVal) : List Document :=
  []

/-- The store states reachable by constructing a `DuckDBDocumentStore` on a
fresh database and applying any sequence of `write_documents` and
`delete_documents` calls (an operation that raises leaves the object in the
state the model returns alongside the exception). -/
inductive Reachable : Store → Prop where
  | init (p : InitParams) (s : Store) : mkStore p freshDB = .ok s → Reachable s
  | write (s : Store) (documents : List Document) (policy : DuplicatePolicy) :
      Reachable s → Reachable (write_documents s documents policy).1
  | delete (s : Store) (ids : List String) :
      Reachable s → Reachable (delete_documents s ids).1

/-- No two rows of the table share an `id`. -/
def uniqueIds (rows : List Row) : Prop :=
  (rows.map Row.id).Nodup

/-- A plain document with id "1" and no blob, score, embedding or sparse
embedding. -/
def doc0 : Document :=
  { id := "1", content := .str "t", blob := Option.none, meta := [],
    score := .none, embedding := .none, sparse_embedding := .none }

/-- A stored row with id "1" and empty JSON metadata. -/
def row1 : Row :=
  { id := "1", embedding := .none, content := .str "first", blob_data := .none,
    blob_meta := Option.none, blob_mime_type := .none, meta := Option.some (.dict []) }

/-- A stored row with id "2". -/
def row2 : Row :=
  { id := "2", embedding := .none, content := .str "second", blob_data := .none,
    blob_meta := Option.none, blob_mime_type := .none, meta := Option.some (.dict []) }

/-- An initialized store holding the two rows `row1` and `row2`, configured
with `recreate_index := true` (as the repository's test fixture does) so
that `_ensure_db_setup` succeeds on every call. -/
def sTwoRows : Store :=
  { table := "documents", index := "idx", recreate_table := false,
    recreate_index := true, create_index_if_missing := true, embedding_dim := 768,
    db := { tableExists := true, rows := [row1, row2], indexExists := true },
    tableInit := true }

/-- The framework document `filter_documents` reconstructs from `row1`. -/
def doc1out : Document :=
  { id := "1", content := .str "first", blob := Option.none, meta := [],
    score := .none, embedding := .none, sparse_embedding := .none }

/-- An initialized store with all-default constructor flags (in particular
`recreate_index := false`) holding `row1`; its HNSW index exists, as it does
after `__init__` has run. -/
def sDefaultFlags : Store :=
  { table := "haystack_documents", index := "hnsw_idx_haystack_documents",
    recreate_table := false, recreate_index := false, create_index_if_missing := true,
    embedding_dim := 768,
    db := { tableExists := true, rows := [row1], indexExists := true },
    tableInit := true }

/-- The store produced by `DuckDBDocumentStore()` with all defaults on a
fresh in-memory database. -/
def sFreshInit : Store :=
  { table := "haystack_documents", index := "hnsw_idx_haystack_documents",
    recreate_table := false, recreate_index := false, create_index_if_missing := true,
    embedding_dim := 768,
    db := { tableExists := true, rows := [], indexExists := true },
    tableInit := true }

/-- Constructor arguments with a non-default embedding dimension. -/
def pDim4 : InitParams :=
  { embedding_dim := 4 }

/-- A database on which the store's index already exists. -/
def dbWithIndex : DBState :=
  { tableExists := false, rows := [], indexExists := true }

/-- The id bound by the INSERT parameters of a converted document is the
document's id. -/
theorem dictToRow_to_duckdb_id (d : Document) :
    (dictToRow (to_duckdb_document d)).id = d.id := rfl

/-- Converting any document to its DuckDB dictionary and handing that
dictionary straight back to `to_haystack_document` raises `TypeError`: the
`meta` entry is still a Python dict (it is only JSON-encoded by the
database), and `json.loads` rejects non-strings. -/
theorem to_haystack_of_to_duckdb_raises (d : Document) :
    to_haystack_document (to_duckdb_document d) = .error .typeError := rfl

/-- A batch containing a row whose id is already present makes the plain
(no conflict clause) insert loop raise `ConstraintException`: stored ids are
never removed inside the loop, so the colliding insert is reached and
fails. -/
theorem runInserts_conflict (docs : List PyDict) (rows : List Row) (n : Nat)
    (h : ∃ d ∈ docs, (dictToRow d).id ∈ rows.map Row.id) :
    runInserts .emptyClause rows docs n = .error .constraintException := by
  induction docs generalizing rows n with
  | nil => simp at h
  | cons d rest ih =>
    by_cases hc : rows.any (fun row => row.id == (dictToRow d).id)
    · simp [runInserts, insertRow, hc]
    · obtain ⟨w, hw, hid⟩ := h
      rcases List.mem_cons.mp hw with rfl | hw'
      · exact absurd (List.any_eq_true.mpr
          (by
            obtain ⟨r, hr, hre⟩ := List.mem_map.mp hid
            exact ⟨r, hr, by simp [hre]⟩)) hc
      · simp only [runInserts, insertRow, hc, if_false, Bool.false_eq_true]
        apply ih
        exact ⟨w, hw', by
          rcases List.mem_map.mp hid with ⟨r, hr, hre⟩
          exact List.mem_map.mpr ⟨r, by simp [hr], hre⟩⟩

/-- `_ensure_db_setup` never adds rows: it returns the rows it was given,
or none at all when `recreate_table` dropped the table. -/
theorem ensure_db_setup_rows_eq_or_nil (s : Store) :
    ((ensure_db_setup s).1).db.rows = s.db.rows ∨ ((ensure_db_setup s).1).db.rows = [] := by
  rcases s with ⟨t, i, rt, ri, cim, ed, ⟨te, rows, ie⟩, ti⟩
  cases ti <;> cases rt <;> cases te <;> cases cim <;> cases ri <;> cases ie <;>
    first | (left; rfl) | (right; rfl)

/-- Filtering rows preserves the uniqueness of ids. -/
theorem filter_preserves_uniqueIds (rows : List Row) (p : Row → Bool)
    (h : uniqueIds rows) : uniqueIds (rows.filter p) :=
  List.Nodup.sublist (List.Sublist.map Row.id (List.filter_sublist rows)) h

/-- A single INSERT under any conflict clause preserves the primary-key
invariant: the engine refuses or skips a colliding id, and the upsert keeps
the conflicting row's id. -/
theorem insertRow_preserves_uniqueIds (c : ConflictClause) (rows : List Row) (r : Row)
    (rows2 : List Row) (n : Nat) (h : uniqueIds rows)
    (hi : insertRow c rows r = .ok (rows2, n)) : uniqueIds rows2 := by
  have happend : ¬(rows.any fun row => row.id == r.id) = true →
      uniqueIds (rows ++ [r]) := by
    intro hc
    have hnotmem : r.id ∉ rows.map Row.id := by
      intro hmem
      obtain ⟨row, hrow, hre⟩ := List.mem_map.mp hmem
      exact hc (List.any_eq_true.mpr ⟨row, hrow, by simp [hre]⟩)
    unfold uniqueIds at h ⊢
    rw [List.map_append]
    simp [List.nodup_append, h, hnotmem]
  cases c <;> simp only [insertRow] at hi <;> split at hi
  · cases hi
  · cases hi
    exact happend (by assumption)
  · cases hi
    exact h
  · cases hi
    exact happend (by assumption)
  · cases hi
    unfold uniqueIds at h ⊢
    rw [List.map_map]
    have : (Row.id ∘ fun row => if (row.id == r.id) = true then upsertRow r row else row)
        = Row.id := by
      funext row
      by_cases hc : (row.id == r.id) = true <;> simp [Function.comp, hc, upsertRow]
    rw [this]; exact h
  · cases hi
    exact happend (by assumption)

/-- The whole insert loop preserves the primary-key invariant. -/
theorem runInserts_preserves_uniqueIds (c : ConflictClause) (docs : List PyDict)
    (rows rows2 : List Row) (n m : Nat) (h : uniqueIds rows)
    (hr : runInserts c rows docs n = .ok (rows2, m)) : uniqueIds rows2 := by
  induction docs generalizing rows n with
  | nil =>
    simp only [runInserts] at hr
    cases hr
    exact h
  | cons d rest ih =>
    simp only [runInserts] at hr
    rcases hi : insertRow c rows (dictToRow d) with e | ⟨rows1, k⟩
    · rw [hi] at hr; cases hr
    · rw [hi] at hr
      exact ih rows1 (n + k)
        (insertRow_preserves_uniqueIds c rows (dictToRow d) rows1 k h hi) hr

/-- `write_documents` preserves the primary-key invariant both when it
commits and when it rolls back. -/
theorem write_documents_preserves_uniqueIds (s : Store) (documents : List Document)
    (policy : DuplicatePolicy) (h : uniqueIds s.db.rows) :
    uniqueIds ((write_documents s documents policy).1).db.rows := by
  rcases hr : runInserts (policy_action policy) s.db.rows (to_duckdb_documents documents) 0
    with e | ⟨rows2, n⟩
  · cases e <;> simp [write_documents, hr, h]
  · simp only [write_documents, hr]
    exact runInserts_preserves_uniqueIds (policy_action policy)
      (to_duckdb_documents documents) s.db.rows rows2 0 n h hr

/-- `delete_documents` preserves the primary-key invariant. -/
theorem delete_documents_preserves_uniqueIds (s : Store) (ids : List String)
    (h : uniqueIds s.db.rows) :
    uniqueIds ((delete_documents s ids).1).db.rows := by
  rcases he : ensure_db_setup s with ⟨s1, r⟩
  have hrows : s1.db.rows = s.db.rows ∨ s1.db.rows = [] := by
    have := ensure_db_setup_rows_eq_or_nil s
    rw [he] at this
    exact this
  have h1 : uniqueIds s1.db.rows := by
    rcases hrows with hr | hr <;> rw [hr]
    · exact h
    · exact List.nodup_nil
  cases r with
  | error e => simpa [delete_documents, he] using h1
  | ok u =>
    simp only [delete_documents, he]
    exact filter_preserves_uniqueIds s1.db.rows _ h1

/-- A successfully constructed store holds the rows of the database it was
opened on, or none when the table was (re)created. -/
theorem mkStore_rows_eq_or_nil (p : InitParams) (db : DBState) (s : Store)
    (h : mkStore p db = .ok s) : s.db.rows = db.rows ∨ s.db.rows = [] := by
  simp only [mkStore, validate_table_name, Bool.not_true, Bool.false_eq_true, if_false] at h
  rcases he : ensure_db_setup
      { table := p.table, index := p.index, recreate_table := p.recreate_table,
        recreate_index := p.recreate_index,
        create_index_if_missing := p.create_index_if_missing,
        embedding_dim := p.embedding_dim, db := db, tableInit := false }
    with ⟨s1, r⟩
  rw [he] at h
  cases r with
  | error e => cases h
  | ok u =>
    cases h
    have := ensure_db_setup_rows_eq_or_nil
      { table := p.table, index := p.index, recreate_table := p.recreate_table,
        recreate_index := p.recreate_index,
        create_index_if_missing := p.create_index_if_missing,
        embedding_dim := p.embedding_dim, db := db, tableInit := false }
    rw [he] at this
    exact this

/-- C1: on a store whose table holds two documents (ids "1" and "2"),
`filter_documents` returns only one document — the one reconstructed from
the first row — because `fetchmany()` fetches a single record and the dict
comprehension merges all fetched records into one dictionary, so it does
not return every document currently stored in the table. -/
theorem filter_documents_returns_single_merged_row :
    filter_documents sTwoRows PyVal.none = (sTwoRows, .ok [doc1out]) ∧
      sTwoRows.db.rows.map Row.id = ["1", "2"] := ⟨rfl, rfl⟩

/-- C2 (counterexample): translating the plain document `doc0` to a
database row dictionary and straight back does not return the original
document — it raises `TypeError` (`json.loads` applied to the dict-valued
`meta` entry). -/
theorem roundtrip_fails_on_plain_document :
    to_haystack_documents (to_duckdb_documents [doc0]) ≠ Except.ok [doc0] := by
  simp [show to_haystack_documents (to_duckdb_documents [doc0])
      = Except.error PyErr.typeError from rfl]

/-- C2 (amended): composing `to_duckdb_documents` with `to_haystack_documents`
directly is the identity only on the empty list; on every non-empty list of
framework documents it raises `TypeError`, because the `meta` value of a
converted document is still a Python dict (only the database's JSON column
turns it into the JSON string `to_haystack_documents` expects) and
`json.loads` rejects non-strings. -/
theorem roundtrip_raises_typeError_on_nonempty (docs : List Document) :
    to_haystack_documents (to_duckdb_documents docs) =
      if docs.isEmpty then .ok [] else .error .typeError := by
  cases docs with
  | nil => rfl
  | cons d rest => rfl

/-- C3: when `write_documents` runs under `DuplicatePolicy.FAIL` and some
document of the batch has the id of a document already in the store, the
INSERT (with no conflict clause) raises the engine's
`ConstraintException`, which `write_documents` re-raises as the framework's
`DuplicateDocumentError` chained from that engine exception — no other
framework exception is substituted — and rolls the transaction back. -/
theorem write_documents_fail_policy_raises_duplicate (s : Store)
    (documents : List Document)
    (h : ∃ docId ∈ documents.map Document.id, docId ∈ s.db.rows.map Row.id) :
    write_documents s documents .FAIL =
      (s, .error (.duplicateDocumentError .constraintException)) := by
  have hconf : ∃ d ∈ to_duckdb_documents documents,
      (dictToRow d).id ∈ s.db.rows.map Row.id := by
    obtain ⟨docId, hmem, hid⟩ := h
    obtain ⟨doc, hdoc, rfl⟩ := List.mem_map.mp hmem
    exact ⟨to_duckdb_document doc,
      List.mem_map.mpr ⟨doc, hdoc, rfl⟩,
      by rw [dictToRow_to_duckdb_id]; exact hid⟩
  simp only [write_documents, policy_action,
    runInserts_conflict (to_duckdb_documents documents) s.db.rows 0 hconf]

/-- C3 (witness): writing `doc0` (id "1") with policy `FAIL` into the store
that already holds a row with id "1" raises
`DuplicateDocumentError from ConstraintException`. -/
theorem write_documents_fail_policy_raises_duplicate_witness :
    write_documents sTwoRows [doc0] .FAIL =
      (sTwoRows, .error (.duplicateDocumentError .constraintException)) :=
  write_documents_fail_policy_raises_duplicate sTwoRows [doc0]
    ⟨"1", by simp [doc0], by simp [sTwoRows, row1, row2]⟩

/-- C4: on a store with the constructor's default flags
(`recreate_index := false`) whose index exists — as it does after
`__init__` — `delete_documents ["1"]` does not delete the stored document
with id "1": `_ensure_db_setup` re-runs `CREATE INDEX` on the existing
index, which raises `duckdb.CatalogException` before the DELETE statement
is reached, and the row stays in the table. -/
theorem delete_documents_raises_on_default_flags :
    delete_documents sDefaultFlags ["1"] = (sDefaultFlags, .error .catalogError) ∧
      sDefaultFlags.db.rows.map Row.id = ["1"] := ⟨rfl, rfl⟩

/-- C5: `DuckDBRetriever.run` returns the empty list for every input,
whatever the configured store, filters and top_k. -/
theorem retriever_run_returns_no_results (r : DuckDBRetriever) (data : PyVal) :
    r.run data = [] := rfl

/-- C6: every store state reachable by constructing a store on a fresh
database and applying any sequence of `write_documents` and
`delete_documents` operations keeps the primary-key invariant: no two rows
of the table share an id. -/
theorem reachable_store_has_unique_ids (s : Store) (h : Reachable s) :
    uniqueIds s.db.rows := by
  induction h with
  | init p s hs =>
    rcases mkStore_rows_eq_or_nil p freshDB s hs with hr | hr <;> rw [uniqueIds, hr] <;>
      exact List.nodup_nil
  | write s documents policy hr ih =>
    exact write_documents_preserves_uniqueIds s documents policy ih
  | delete s ids hr ih => exact delete_documents_preserves_uniqueIds s ids ih

/-- C6 (witness): the store freshly constructed with default arguments has
unique ids. -/
theorem reachable_store_has_unique_ids_witness : uniqueIds sFreshInit.db.rows :=
  reachable_store_has_unique_ids sFreshInit (Reachable.init {} sFreshInit rfl)

/-- C7: the `filters` argument of `filter_documents` has no influence on
the result — the source reads it into `_` and never uses it. -/
theorem filter_documents_independent_of_filters (s : Store) (f1 f2 : PyVal) :
    filter_documents s f1 = filter_documents s f2 := rfl

/-- C8: serializing a store constructed with `embedding_dim = 4` and
deserializing it yields a store with the default `embedding_dim = 768`:
`to_dict` records only `table` and `index`, so `from_dict` rebuilds every
other constructor argument from its default, and the round trip does not
preserve the configuration. -/
theorem serialization_roundtrip_drops_embedding_dim :
    ((mkStore pDim4 freshDB).bind
        (fun s => Store.from_dict (Store.to_dict s) freshDB)).map Store.embedding_dim
      = .ok 768 ∧ pDim4.embedding_dim = 4 := ⟨rfl, rfl⟩

/-- C9: whenever `write_documents` raises `DuplicateDocumentError`, the
transaction was rolled back and the store's contents are exactly what they
were before the call — no document of the batch is partially written. -/
theorem write_documents_rolls_back_on_duplicate_error (s : Store)
    (documents : List Document) (policy : DuplicatePolicy) (cause : PyErr)
    (h : (write_documents s documents policy).2 =
      .error (.duplicateDocumentError cause)) :
    (write_documents s documents policy).1 = s := by
  rcases hr : runInserts (policy_action policy) s.db.rows (to_duckdb_documents documents) 0
    with e | ⟨rows2, n⟩
  · cases e <;> simp [write_documents, hr]
  · simp [write_documents, hr] at h

/-- C9 (witness): the failing duplicate write of `doc0` into `sTwoRows`
leaves the store exactly as it was. -/
theorem write_documents_rolls_back_on_duplicate_error_witness :
    (write_documents sTwoRows [doc0] .FAIL).1 = sTwoRows :=
  write_documents_rolls_back_on_duplicate_error sTwoRows [doc0] .FAIL
    .constraintException rfl

/-- C10: constructing a `DuckDBDocumentStore` with
`create_index_if_missing = False` raises `RuntimeError` on every database —
also when the index already exists — because `_ensure_db_setup` hard-codes
`index_exists = False`; no store with that flag can be created. -/
theorem mkStore_raises_when_create_index_if_missing_false (p : InitParams)
    (db : DBState) (h : p.create_index_if_missing = false) :
    mkStore p db = .error .runtimeError := by
  simp only [mkStore, validate_table_name, Bool.not_true, Bool.false_eq_true, if_false,
    ensure_db_setup]
  rcases db with ⟨te, rows, ie⟩
  cases hrt : p.recreate_table <;> cases te <;> simp [create_table, delete_table, h]

/-- C10 (witness): the default configuration with the flag turned off,
opened on a database whose index already exists, still raises
`RuntimeError`. -/
theorem mkStore_raises_when_create_index_if_missing_false_witness :
    mkStore { create_index_if_missing := false } dbWithIndex = .error .runtimeError :=
  mkStore_raises_when_create_index_if_missing_false
    { create_index_if_missing := false } dbWithIndex rfl

end DuckDBHaystack
